import Mathlib

/-!
Verification development for the TradeAI player-valuation pipeline.

The definitions below are a shallow embedding of the serving-time core of
the repository:

* `backend/model_service.py` — `PlayerValuationService.create_player_features`,
  `_estimate_basic_stats`, `predict_fantasy_points`, `analyze_trade_impact`,
  `is_loaded`.
* `backend/espn_service.py` — `calculate_trade_value`.
* `backend/simple_main.py` — the `analyze_trade` endpoint body.

Python floats are modelled as exact rationals (`ℚ`), Python `dict`s as
association lists (`List (String × _)`), a possibly-NaN numeric cell as
`Option ℚ` (with `none` playing the role of a value skipped by `pd.isna`),
and a possibly-absent dict key as `Option _` read through `Option.getD`,
mirroring `dict.get(key, default)`.  The trained Keras model and the fitted
`StandardScaler` are opaque at serving time and are embedded as abstract
functions held in `Option` fields, so that the "not loaded" (`None`) states
of the Python service are represented faithfully.
-/

namespace TradeAI

/-- First index of `name` in `cols`, mirroring Python `list.index` guarded by
`name in cols` (`none` when absent). -/
def listIndex (cols : List String) (name : String) : Option Nat :=
  match cols with
  | [] => none
  | c :: cs => if c = name then some 0 else (listIndex cs name).map (· + 1)

/-- `features[idx] = value` for `idx = feature_columns.index(name)`, executed
only when `name in feature_columns` — the write pattern used throughout
`create_player_features` and `_estimate_basic_stats`. -/
def setFeature (cols : List String) (features : List ℚ) (name : String) (v : ℚ) :
    List ℚ :=
  match listIndex cols name with
  | some idx => features.set idx v
  | none => features

/-- Fold a list of `(feature name, value)` writes over the feature vector:
the loop `for stat, value in d.items(): if stat in feature_columns: ...`. -/
def applyStats (cols : List String) (features : List ℚ)
    (stats : List (String × ℚ)) : List ℚ :=
  stats.foldl (fun fs p => setFeature cols fs p.1 p.2) features

/-- Runtime player descriptor as read by `model_service.py`: only the keys
`position` and `projectedPoints` are load-bearing; each may be absent. -/
structure PlayerData where
  position : Option String := none
  projectedPoints : Option ℚ := none

/-- The `position_flags` dict literal of `create_player_features`
(lines 81–86). -/
def position_flags (position : String) : List (String × ℚ) :=
  [("is_qb", if position = "QB" then 1 else 0),
   ("is_rb", if position = "RB" then 1 else 0),
   ("is_wr", if position = "WR" then 1 else 0),
   ("is_te", if position = "TE" then 1 else 0)]

/-- The per-position `stat_estimates` dict built by `_estimate_basic_stats`
(lines 115–150); note that QB `interceptions` is the bare constant `10`,
not multiplied by `scale_factor`. -/
def statEstimates (position : String) (projected_points : ℚ) :
    List (String × ℚ) :=
  let scale_factor := projected_points / 150
  if position = "QB" then
    [("passing_yards", 3500 * scale_factor),
     ("passing_tds", 25 * scale_factor),
     ("completions", 350 * scale_factor),
     ("attempts", 550 * scale_factor),
     ("interceptions", 10)]
  else if position = "RB" then
    [("rushing_yards", 800 * scale_factor),
     ("rushing_tds", 8 * scale_factor),
     ("rushing_attempts", 200 * scale_factor),
     ("receiving_yards", 300 * scale_factor),
     ("receptions", 30 * scale_factor),
     ("targets", 40 * scale_factor)]
  else if position = "WR" then
    [("receiving_yards", 900 * scale_factor),
     ("receiving_tds", 7 * scale_factor),
     ("receptions", 70 * scale_factor),
     ("targets", 110 * scale_factor),
     ("rushing_yards", 50 * scale_factor)]
  else if position = "TE" then
    [("receiving_yards", 600 * scale_factor),
     ("receiving_tds", 5 * scale_factor),
     ("receptions", 50 * scale_factor),
     ("targets", 75 * scale_factor)]
  else
    []

/-- `_estimate_basic_stats(features, position, projected_points)` (the
fallback when no position profile is available). -/
def estimate_basic_stats (cols : List String) (features : List ℚ)
    (position : String) (projected_points : ℚ) : List ℚ :=
  applyStats cols features (statEstimates position projected_points)

/-- A position profile: per-feature historical means, where `none` stands
for a NaN cell (skipped by the `pd.isna` guard). -/
abbrev Profile := List (String × Option ℚ)

/-- The profile loop of `create_player_features` (lines 96–101): each
non-NaN mean is written scaled by `projected_points / 150`. -/
def applyProfile (cols : List String) (features : List ℚ)
    (profile : Profile) (projected_points : ℚ) : List ℚ :=
  profile.foldl
    (fun fs p =>
      match p.2 with
      | some avg_value => setFeature cols fs p.1 (avg_value * (projected_points / 150))
      | none => fs)
    features

/-- `PlayerValuationService.create_player_features` (lines 68–111), given the
loaded `feature_columns` and `position_stats`.  Returns the dense feature
vector (the final `reshape(1, -1)` only changes the array shape, not its
entries). -/
def create_player_features (cols : List String)
    (position_stats : List (String × Profile)) (player_data : PlayerData) :
    List ℚ :=
  let features : List ℚ := List.replicate cols.length 0
  let position := player_data.position.getD "RB"
  let projected_points := player_data.projectedPoints.getD 150
  let features := applyStats cols features (position_flags position)
  let features :=
    match List.lookup position position_stats with
    | some profile => applyProfile cols features profile projected_points
    | none => estimate_basic_stats cols features position projected_points
  setFeature cols features "games" 17

/-- The writes performed by the profile loop of `create_player_features`,
as a plain `(name, value)` list: NaN means are dropped, the rest are scaled
by `projected_points / 150`.  `applyProfile` is exactly `applyStats` over
this list (`applyProfile_eq_applyStats` below). -/
def profileWrites (profile : Profile) (projected_points : ℚ) :
    List (String × ℚ) :=
  profile.filterMap fun p => p.2.map fun avg_value =>
    (p.1, avg_value * (projected_points / 150))

/-- The unscaled per-position baseline constants of `_estimate_basic_stats`
(the literals of lines 117–150 before multiplication by `scale_factor`). -/
def baselineStats (position : String) : List (String × ℚ) :=
  if position = "QB" then
    [("passing_yards", 3500), ("passing_tds", 25), ("completions", 350),
     ("attempts", 550), ("interceptions", 10)]
  else if position = "RB" then
    [("rushing_yards", 800), ("rushing_tds", 8), ("rushing_attempts", 200),
     ("receiving_yards", 300), ("receptions", 30), ("targets", 40)]
  else if position = "WR" then
    [("receiving_yards", 900), ("receiving_tds", 7), ("receptions", 70),
     ("targets", 110), ("rushing_yards", 50)]
  else if position = "TE" then
    [("receiving_yards", 600), ("receiving_tds", 5), ("receptions", 50),
     ("targets", 75)]
  else
    []

/-- The feature names `create_player_features` can possibly write for a
given loaded `position_stats` and player: the position indicators, the keys
of the chosen branch (profile entries, or fallback estimates), and `games`.
Every other schema column keeps its initial zero. -/
def writtenNames (position_stats : List (String × Profile))
    (player_data : PlayerData) : List String :=
  let position := player_data.position.getD "RB"
  let projected_points := player_data.projectedPoints.getD 150
  (position_flags position).map Prod.fst ++
    (match List.lookup position position_stats with
     | some profile => profile.map Prod.fst
     | none => (statEstimates position projected_points).map Prod.fst) ++
    ["games"]

/-- The loaded state of `PlayerValuationService`: each component is `None`
until `load_model_and_data` succeeds.  The trained Keras model and the
fitted `StandardScaler.transform` are opaque serving-time functions. -/
structure Service where
  model : Option (List ℚ → ℚ)
  scaler : Option (List ℚ → List ℚ)
  feature_columns : Option (List String)
  position_stats : List (String × Profile)

/-- `PlayerValuationService.is_loaded` (lines 204–210). -/
def is_loaded (s : Service) : Bool :=
  s.model.isSome && s.scaler.isSome && s.feature_columns.isSome

/-- `PlayerValuationService.predict_fantasy_points` (lines 158–172).  A Python
`raise ValueError(...)` is embedded as `Except.error`: first the explicit
`model is None or scaler is None` guard, then the `feature_columns is None`
guard inside `create_player_features`. -/
def predict_fantasy_points (s : Service) (player_data : PlayerData) :
    Except String ℚ :=
  match s.model, s.scaler with
  | some model, some scaler =>
    match s.feature_columns with
    | some cols =>
      Except.ok (model (scaler (create_player_features cols s.position_stats player_data)))
    | none => Except.error "Model not loaded"
  | _, _ => Except.error "Model not loaded"

/-- `sum(self.predict_fantasy_points(player) for player in players)`: the sum
raises as soon as one prediction raises. -/
def sumPredictions (s : Service) (players : List PlayerData) : Except String ℚ :=
  players.foldl
    (fun acc p => acc.bind (fun a => (predict_fantasy_points s p).map (fun v => a + v)))
    (Except.ok 0)

/-- The recommendation tier chain of `analyze_trade_impact` (lines 182–194). -/
def recommendationFor (user_net_change : ℚ) : String :=
  if user_net_change > 10 then
    "Excellent trade for you! This significantly improves your team."
  else if user_net_change > 5 then
    "Good trade for you. Consider accepting this offer."
  else if user_net_change > 0 then
    "Slight advantage to you. Worth considering based on team needs."
  else if user_net_change > -5 then
    "Fairly even trade. Consider roster construction and bye weeks."
  else if user_net_change > -10 then
    "This trade favors your opponent. You might want to ask for more."
  else
    "Poor trade for you. Consider declining or asking for significant additions."

/-- The result dict of `analyze_trade_impact` (lines 196–202). -/
structure TradeImpact where
  user_giving_value : ℚ
  user_receiving_value : ℚ
  user_net_change : ℚ
  partner_net_change : ℚ
  recommendation : String

/-- `PlayerValuationService.analyze_trade_impact` (lines 174–202). -/
def analyze_trade_impact (s : Service)
    (user_players partner_players : List PlayerData) :
    Except String TradeImpact :=
  (sumPredictions s user_players).bind fun user_giving_value =>
    (sumPredictions s partner_players).map fun user_receiving_value =>
      { user_giving_value := user_giving_value
        user_receiving_value := user_receiving_value
        user_net_change := user_receiving_value - user_giving_value
        partner_net_change := user_giving_value - user_receiving_value
        recommendation := recommendationFor (user_receiving_value - user_giving_value) }

/-! ### Heuristic trade evaluation (`espn_service.py` / `simple_main.py`) -/

/-- Player dict as consumed by `calculate_trade_value` (keys
`projected_points`, `position`, each possibly absent). -/
structure HPlayer where
  position : Option String := none
  projected_points : Option ℚ := none

/-- Python `round` ties-to-even on an exact rational. -/
def roundHalfEven (x : ℚ) : ℤ :=
  let f := ⌊x⌋
  if x - f < 1 / 2 then f
  else if 1 / 2 < x - f then f + 1
  else if f % 2 = 0 then f else f + 1

/-- `round(x, 2)`. -/
def round2 (x : ℚ) : ℚ := (roundHalfEven (x * 100) : ℚ) / 100

/-- The `multipliers` dict of `calculate_trade_value` (lines 461–468). -/
def multipliers : List (String × ℚ) :=
  [("QB", 0.8), ("RB", 1.2), ("WR", 1.1), ("TE", 1.0), ("K", 0.5), ("D/ST", 0.6)]

/-- One loop iteration value:
`player.get('projected_points', 0) * multipliers.get(position, 1.0)`. -/
def playerValue (player : HPlayer) : ℚ :=
  (player.projected_points.getD 0) *
    ((List.lookup (player.position.getD "UNKNOWN") multipliers).getD 1)

/-- `position_values[position] += value` executed only
`if position in position_values`. -/
def bumpPosition (vals : List (String × ℚ)) (position : String) (v : ℚ) :
    List (String × ℚ) :=
  vals.map fun q => if q.1 = position then (q.1, q.2 + v) else q

/-- The result dict of `calculate_trade_value`. -/
structure TradeValue where
  total_value : ℚ
  position_breakdown : List (String × ℚ)
  average_value : ℚ

/-- `ESPNService.calculate_trade_value` (lines 450–485): accumulate
`total_value` and the per-position breakdown, then round. -/
def calculate_trade_value (players : List HPlayer) : TradeValue :=
  let init : ℚ × List (String × ℚ) :=
    (0, [("QB", 0), ("RB", 0), ("WR", 0), ("TE", 0), ("K", 0), ("D/ST", 0)])
  let acc := players.foldl
    (fun acc player =>
      let v := playerValue player
      (acc.1 + v, bumpPosition acc.2 (player.position.getD "UNKNOWN") v))
    init
  { total_value := round2 acc.1
    position_breakdown := acc.2
    average_value := round2 (acc.1 / (max 1 players.length : ℕ)) }

/-- The response of the `/api/analyze-trade` endpoint (`simple_main.py`,
lines 83–117); the formatted `recommendation` string is not modelled. -/
structure AnalyzeResult where
  team1_value : TradeValue
  team2_value : TradeValue
  is_fair : Bool
  winner : String
  advantage : ℚ

/-- The body of `analyze_trade` in `simple_main.py` (lines 89–111). -/
def analyze_trade (team1_players team2_players : List HPlayer) : AnalyzeResult :=
  let team1_value := calculate_trade_value team1_players
  let team2_value := calculate_trade_value team2_players
  let value_difference := |team1_value.total_value - team2_value.total_value|
  let fairness_threshold : ℚ := 5.0
  let is_fair := value_difference ≤ fairness_threshold
  let wa : String × ℚ :=
    if team1_value.total_value > team2_value.total_value then
      ("team1", team1_value.total_value - team2_value.total_value)
    else if team2_value.total_value > team1_value.total_value then
      ("team2", team2_value.total_value - team1_value.total_value)
    else
      ("tie", 0)
  { team1_value := team1_value
    team2_value := team2_value
    is_fair := is_fair
    winner := wa.1
    advantage := round2 wa.2 }

/-! ### Basic lemmas about the write primitives -/

theorem listIndex_lt_length {cols : List String} {name : String} {i : ℕ}
    (h : listIndex cols name = some i) : i < cols.length := by
  induction cols generalizing i with
  | nil => simp [listIndex] at h
  | cons c cs ih =>
    rw [listIndex] at h
    by_cases hc : c = name
    · simp only [if_pos hc, Option.some.injEq] at h
      subst h
      simp
    · simp only [if_neg hc, Option.map_eq_some'] at h
      obtain ⟨j, hj, rfl⟩ := h
      have := ih hj
      simp only [List.length_cons]
      omega

theorem listIndex_getElem {cols : List String} {name : String} {i : ℕ}
    (h : listIndex cols name = some i) : cols[i]? = some name := by
  induction cols generalizing i with
  | nil => simp [listIndex] at h
  | cons c cs ih =>
    rw [listIndex] at h
    by_cases hc : c = name
    · simp [hc] at h
      simp [← h, hc]
    · simp only [if_neg hc, Option.map_eq_some'] at h
      obtain ⟨j, hj, rfl⟩ := h
      simpa using ih hj

theorem listIndex_inj {cols : List String} {a b : String} {i : ℕ}
    (ha : listIndex cols a = some i) (hb : listIndex cols b = some i) :
    a = b :=
  Option.some.inj ((listIndex_getElem ha).symm.trans (listIndex_getElem hb))

theorem length_setFeature (cols : List String) (fs : List ℚ) (name : String)
    (v : ℚ) : (setFeature cols fs name v).length = fs.length := by
  rw [setFeature]
  cases h : listIndex cols name <;> simp

theorem setFeature_getElem_self {cols : List String} {fs : List ℚ}
    {name : String} {v : ℚ} {i : ℕ} (hidx : listIndex cols name = some i)
    (hlen : fs.length = cols.length) :
    (setFeature cols fs name v)[i]? = some v := by
  rw [setFeature, hidx]
  exact List.getElem?_set_self (by rw [hlen]; exact listIndex_lt_length hidx)

theorem setFeature_getElem_of_ne {cols : List String} {fs : List ℚ}
    {name n : String} {v : ℚ} {i : ℕ} (hget : cols[i]? = some n)
    (hne : name ≠ n) : (setFeature cols fs name v)[i]? = fs[i]? := by
  rw [setFeature]
  cases h : listIndex cols name with
  | none => rfl
  | some j =>
    refine List.getElem?_set_ne fun hji => hne ?_
    subst hji
    exact Option.some.inj ((listIndex_getElem h).symm.trans hget)

theorem length_applyStats (cols : List String) (fs : List ℚ)
    (stats : List (String × ℚ)) :
    (applyStats cols fs stats).length = fs.length := by
  induction stats generalizing fs with
  | nil => rfl
  | cons p rest ih =>
    rw [applyStats, List.foldl_cons, ← applyStats]
    rw [ih, length_setFeature]

theorem applyStats_getElem_of_not_mem {cols : List String} {fs : List ℚ}
    {stats : List (String × ℚ)} {i : ℕ} {n : String}
    (hget : cols[i]? = some n) (hkeys : ∀ p ∈ stats, p.1 ≠ n) :
    (applyStats cols fs stats)[i]? = fs[i]? := by
  induction stats generalizing fs with
  | nil => rfl
  | cons p rest ih =>
    rw [applyStats, List.foldl_cons, ← applyStats]
    rw [ih fun q hq => hkeys q (List.mem_cons_of_mem p hq)]
    exact setFeature_getElem_of_ne hget (hkeys p (List.mem_cons_self p rest))

theorem applyStats_getElem_of_mem {cols : List String} {fs : List ℚ}
    {stats : List (String × ℚ)} {f : String} {v : ℚ} {i : ℕ}
    (hnd : (stats.map Prod.fst).Nodup) (hmem : (f, v) ∈ stats)
    (hidx : listIndex cols f = some i) (hlen : fs.length = cols.length) :
    (applyStats cols fs stats)[i]? = some v := by
  induction stats generalizing fs with
  | nil => simp at hmem
  | cons p rest ih =>
    rw [List.map_cons, List.nodup_cons] at hnd
    rw [applyStats, List.foldl_cons, ← applyStats]
    rcases List.mem_cons.mp hmem with heq | hrest
    · subst heq
      rw [applyStats_getElem_of_not_mem (listIndex_getElem hidx)
        (fun q hq hq1 => hnd.1 (by
          have hm := List.mem_map_of_mem Prod.fst hq
          rw [hq1] at hm
          exact hm))]
      exact setFeature_getElem_self hidx hlen
    · exact ih hnd.2 hrest (by rw [length_setFeature]; exact hlen)

theorem applyProfile_eq_applyStats (cols : List String) (fs : List ℚ)
    (profile : Profile) (pp : ℚ) :
    applyProfile cols fs profile pp =
      applyStats cols fs (profileWrites profile pp) := by
  induction profile generalizing fs with
  | nil => rfl
  | cons p rest ih =>
    cases p with
    | mk name vo =>
      cases vo with
      | none =>
        rw [applyProfile, List.foldl_cons]
        rw [← applyProfile, ih]
        rfl
      | some v =>
        rw [applyProfile, List.foldl_cons]
        rw [← applyProfile, ih]
        rfl

theorem profileWrites_keys_sublist (profile : Profile) (pp : ℚ) :
    ((profileWrites profile pp).map Prod.fst).Sublist (profile.map Prod.fst) := by
  induction profile with
  | nil => simp [profileWrites]
  | cons p rest ih =>
    rw [profileWrites, List.filterMap_cons]
    cases p with
    | mk name vo =>
      cases vo with
      | none => exact (ih.trans (List.sublist_cons_self _ _))
      | some v => simpa [profileWrites] using ih.cons₂ name

theorem profileWrites_mem {profile : Profile} {pp : ℚ} {f : String} {m : ℚ}
    (h : (f, some m) ∈ profile) :
    (f, m * (pp / 150)) ∈ profileWrites profile pp := by
  rw [profileWrites, List.mem_filterMap]
  exact ⟨(f, some m), h, rfl⟩

/-! ### Key bookkeeping for the feature writes -/

theorem position_flags_keys (position : String) :
    (position_flags position).map Prod.fst =
      ["is_qb", "is_rb", "is_wr", "is_te"] := rfl

theorem statEstimates_eq_scaled (position : String) (pp : ℚ) :
    statEstimates position pp =
      (baselineStats position).map fun p =>
        (p.1, if position = "QB" ∧ p.1 = "interceptions" then 10
              else p.2 * (pp / 150)) := by
  rw [statEstimates, baselineStats]
  by_cases h1 : position = "QB"
  · simp [h1]
  by_cases h2 : position = "RB"
  · simp [h1, h2]
  by_cases h3 : position = "WR"
  · simp [h1, h2, h3]
  by_cases h4 : position = "TE"
  · simp [h1, h2, h3, h4]
  simp [h1, h2, h3, h4]

theorem statEstimates_keys (position : String) (pp : ℚ) :
    (statEstimates position pp).map Prod.fst =
      (baselineStats position).map Prod.fst := by
  rw [statEstimates_eq_scaled, List.map_map]
  rfl

theorem baselineStats_fst_mem {position : String} {p : String × ℚ}
    (hp : p ∈ baselineStats position) :
    p.1 ∈ ["passing_yards", "passing_tds", "completions", "attempts",
           "interceptions", "rushing_yards", "rushing_tds",
           "rushing_attempts", "receiving_yards", "receiving_tds",
           "receptions", "targets"] := by
  have hm : p.1 ∈ (baselineStats position).map Prod.fst :=
    List.mem_map_of_mem _ hp
  have hsub : ∀ x ∈ (baselineStats position).map Prod.fst,
      x ∈ ["passing_yards", "passing_tds", "completions", "attempts",
           "interceptions", "rushing_yards", "rushing_tds",
           "rushing_attempts", "receiving_yards", "receiving_tds",
           "receptions", "targets"] := by
    rw [baselineStats]
    split_ifs <;> decide
  exact hsub p.1 hm

theorem statEstimates_fst_mem {position : String} {pp : ℚ} {p : String × ℚ}
    (hp : p ∈ statEstimates position pp) :
    p.1 ∈ ["passing_yards", "passing_tds", "completions", "attempts",
           "interceptions", "rushing_yards", "rushing_tds",
           "rushing_attempts", "receiving_yards", "receiving_tds",
           "receptions", "targets"] := by
  rw [statEstimates_eq_scaled] at hp
  obtain ⟨q, hq, rfl⟩ := List.mem_map.mp hp
  exact baselineStats_fst_mem (p := q) hq

theorem baselineStats_keys_nodup (position : String) :
    ((baselineStats position).map Prod.fst).Nodup := by
  rw [baselineStats]
  split_ifs <;> decide

theorem statEstimates_mem_of_baseline {position : String} {pp : ℚ}
    {name : String} {base : ℚ} (h : (name, base) ∈ baselineStats position) :
    (name, if position = "QB" ∧ name = "interceptions" then 10
           else base * (pp / 150)) ∈ statEstimates position pp := by
  rw [statEstimates_eq_scaled]
  exact List.mem_map_of_mem _ h

/-! ### The write structure of `create_player_features` -/

theorem create_player_features_eq (cols : List String)
    (stats : List (String × Profile)) (player : PlayerData) :
    create_player_features cols stats player =
      setFeature cols
        (match List.lookup (player.position.getD "RB") stats with
         | some profile =>
             applyProfile cols
               (applyStats cols (List.replicate cols.length 0)
                 (position_flags (player.position.getD "RB")))
               profile (player.projectedPoints.getD 150)
         | none =>
             estimate_basic_stats cols
               (applyStats cols (List.replicate cols.length 0)
                 (position_flags (player.position.getD "RB")))
               (player.position.getD "RB") (player.projectedPoints.getD 150))
        "games" 17 := rfl

theorem create_profile_value {cols : List String}
    {stats : List (String × Profile)} {pos : String} {profile : Profile}
    {f : String} {m : ℚ} {i : ℕ} (pp : ℚ)
    (hlook : List.lookup pos stats = some profile)
    (hnd : (profile.map Prod.fst).Nodup)
    (hmem : (f, some m) ∈ profile)
    (hidx : listIndex cols f = some i)
    (hne : f ≠ "games") :
    (create_player_features cols stats ⟨some pos, some pp⟩)[i]? =
      some (m * (pp / 150)) := by
  rw [create_player_features_eq]
  simp only [Option.getD_some, hlook]
  rw [setFeature_getElem_of_ne (listIndex_getElem hidx) (Ne.symm hne)]
  rw [applyProfile_eq_applyStats]
  refine applyStats_getElem_of_mem
    ((profileWrites_keys_sublist profile pp).nodup hnd)
    (profileWrites_mem hmem) hidx ?_
  rw [length_applyStats, List.length_replicate]

theorem create_fallback_flag {cols : List String}
    {stats : List (String × Profile)} {pos : String} {ppo : Option ℚ}
    {flag : String} {val : ℚ} {i : ℕ}
    (hlook : List.lookup pos stats = none)
    (hmem : (flag, val) ∈ position_flags pos)
    (hidx : listIndex cols flag = some i) :
    (create_player_features cols stats ⟨some pos, ppo⟩)[i]? = some val := by
  have hflag : flag ∈ ["is_qb", "is_rb", "is_wr", "is_te"] := by
    have hm := List.mem_map_of_mem Prod.fst hmem
    rwa [position_flags_keys] at hm
  have hgames : ("games" : String) ≠ flag := by
    have : ∀ x ∈ (["is_qb", "is_rb", "is_wr", "is_te"] : List String),
        ("games" : String) ≠ x := by decide
    exact this flag hflag
  rw [create_player_features_eq]
  simp only [Option.getD_some, hlook]
  rw [setFeature_getElem_of_ne (listIndex_getElem hidx) hgames]
  rw [estimate_basic_stats]
  rw [applyStats_getElem_of_not_mem (listIndex_getElem hidx) ?keys]
  case keys =>
    intro p hp
    have h12 := statEstimates_fst_mem hp
    have : ∀ a ∈ (["passing_yards", "passing_tds", "completions", "attempts",
        "interceptions", "rushing_yards", "rushing_tds", "rushing_attempts",
        "receiving_yards", "receiving_tds", "receptions", "targets"] :
          List String),
        ∀ b ∈ (["is_qb", "is_rb", "is_wr", "is_te"] : List String),
        a ≠ b := by decide
    exact this p.1 h12 flag hflag
  refine applyStats_getElem_of_mem ?_ hmem hidx ?_
  · rw [position_flags_keys]
    decide
  · rw [List.length_replicate]

theorem not_mem_keys {β : Type} {l : List (String × β)} {n : String}
    (h : n ∉ l.map Prod.fst) : ∀ p ∈ l, p.1 ≠ n :=
  fun p hp he => h (by rw [← he]; exact List.mem_map_of_mem _ hp)

theorem create_length (cols : List String) (stats : List (String × Profile))
    (player : PlayerData) :
    (create_player_features cols stats player).length = cols.length := by
  rw [create_player_features_eq, length_setFeature]
  cases hl : List.lookup (player.position.getD "RB") stats with
  | some profile =>
    simp only [hl]
    rw [applyProfile_eq_applyStats, length_applyStats, length_applyStats,
      List.length_replicate]
  | none =>
    simp only [hl]
    rw [estimate_basic_stats, length_applyStats, length_applyStats,
      List.length_replicate]

theorem create_untouched_zero {cols : List String}
    {stats : List (String × Profile)} {player : PlayerData} {i : ℕ}
    {n : String} (hget : cols[i]? = some n)
    (hnot : n ∉ writtenNames stats player) :
    (create_player_features cols stats player)[i]? = some 0 := by
  have hi : i < cols.length := (List.getElem?_eq_some.mp hget).1
  rw [create_player_features_eq]
  cases hl : List.lookup (player.position.getD "RB") stats with
  | some profile =>
    simp only [writtenNames, hl, List.mem_append, List.mem_singleton,
      not_or] at hnot
    obtain ⟨⟨hflags, hprof⟩, hgames⟩ := hnot
    simp only [hl]
    rw [setFeature_getElem_of_ne hget fun he => hgames he.symm]
    rw [applyProfile_eq_applyStats]
    rw [applyStats_getElem_of_not_mem hget (not_mem_keys fun hmem =>
      hprof ((profileWrites_keys_sublist profile _).subset hmem))]
    rw [applyStats_getElem_of_not_mem hget (not_mem_keys hflags)]
    exact List.getElem?_replicate_of_lt hi
  | none =>
    simp only [writtenNames, hl, List.mem_append, List.mem_singleton,
      not_or] at hnot
    obtain ⟨⟨hflags, hest⟩, hgames⟩ := hnot
    simp only [hl]
    rw [setFeature_getElem_of_ne hget fun he => hgames he.symm]
    rw [estimate_basic_stats]
    rw [applyStats_getElem_of_not_mem hget (not_mem_keys hest)]
    rw [applyStats_getElem_of_not_mem hget (not_mem_keys hflags)]
    exact List.getElem?_replicate_of_lt hi

/-! ### Claims -/

/-- C1: for every player descriptor (any subset of fields present) and any
loaded feature columns, `create_player_features` returns a vector with
exactly `|feature_columns|` numeric (rational) entries, index-aligned to the
schema order, and every entry whose schema column is not among the written
names (indicators, profile/estimate keys, `games`) is exactly zero — never
missing. -/
theorem C1_feature_vector_length_and_zeros (cols : List String)
    (stats : List (String × Profile)) (player : PlayerData) :
    (create_player_features cols stats player).length = cols.length ∧
    ∀ (i : ℕ) (n : String), cols[i]? = some n →
      n ∉ writtenNames stats player →
      (create_player_features cols stats player)[i]? = some 0 :=
  ⟨create_length cols stats player,
   fun _ _ hget hnot => create_untouched_zero hget hnot⟩

/-- C1 witness: a one-column schema (`height`) with no profile and an empty
descriptor yields a length-1 vector whose only entry is zero. -/
theorem C1_witness :
    (create_player_features ["height"] [] ⟨none, none⟩).length = 1 ∧
    (create_player_features ["height"] [] ⟨none, none⟩)[0]? = some 0 :=
  ⟨(C1_feature_vector_length_and_zeros ["height"] [] ⟨none, none⟩).1,
   (C1_feature_vector_length_and_zeros ["height"] [] ⟨none, none⟩).2 0
     "height" rfl (by decide)⟩

/-- C2 counterexample: with a schema consisting of the four indicator
columns and an RB profile carrying the (one-hot) historical indicator means,
an RB descriptor with `projectedPoints = 300` gets `is_rb = 2`, not `1`:
the profile loop overwrites the one-hot flags with `mean * (300 / 150)`.
The claim, which requires `is_rb = 1` regardless of whether a profile entry
exists and of `projected_points`, is therefore false on the code. -/
theorem C2_counterexample :
    create_player_features ["is_qb", "is_rb", "is_wr", "is_te"]
        [("RB", [("is_rb", some 1), ("is_qb", some 0), ("is_wr", some 0),
                 ("is_te", some 0)])]
        ⟨some "RB", some 300⟩ = [0, 2, 0, 0] ∧
      (2 : ℚ) ≠ 1 := by
  constructor
  · simp [create_player_features, estimate_basic_stats, applyStats,
      statEstimates, position_flags, setFeature, listIndex, applyProfile,
      List.lookup]
    norm_num
  · norm_num

/-- C2 amended: when the player's position has no Position Profile entry,
every indicator column present in the schema carries exactly its one-hot
value (1 for the matching position, 0 for the others, as recorded in
`position_flags`), for every position and every `projectedPoints`; when a
profile entry exists, indicator names appearing in the profile are instead
overwritten with `mean * projected_points / 150`. -/
theorem C2_amended_one_hot (cols : List String)
    (stats : List (String × Profile)) (pos : String) (ppo : Option ℚ)
    (flag : String) (val : ℚ) (i : ℕ)
    (hlook : List.lookup pos stats = none)
    (hmem : (flag, val) ∈ position_flags pos)
    (hidx : listIndex cols flag = some i) :
    (create_player_features cols stats ⟨some pos, ppo⟩)[i]? = some val :=
  create_fallback_flag hlook hmem hidx

/-- C2 witness: with schema `[is_qb, is_rb]`, no profile, an RB descriptor
without a projection gets `is_rb = 1`. -/
theorem C2_witness :
    (create_player_features ["is_qb", "is_rb"] [] ⟨some "RB", none⟩)[1]? =
      some 1 :=
  C2_amended_one_hot ["is_qb", "is_rb"] [] "RB" none "is_rb" 1 1 rfl
    (by decide) (by decide)

/-- C3: in the profile path, each profile-derived feature (a non-NaN profile
entry distinct from the `games` override) is written as
`mean * projected_points / 150`; at the nominal 150 projection it equals
the stored historical mean exactly, and at a 300 projection it equals
exactly twice its value in the 150 case. -/
theorem C3_profile_linear_scaling (cols : List String)
    (stats : List (String × Profile)) (pos : String) (profile : Profile)
    (f : String) (m : ℚ) (i : ℕ) (pp : ℚ)
    (hlook : List.lookup pos stats = some profile)
    (hnd : (profile.map Prod.fst).Nodup)
    (hmem : (f, some m) ∈ profile)
    (hidx : listIndex cols f = some i)
    (hne : f ≠ "games") :
    (create_player_features cols stats ⟨some pos, some pp⟩)[i]? =
        some (m * (pp / 150)) ∧
    (create_player_features cols stats ⟨some pos, some 150⟩)[i]? = some m ∧
    (create_player_features cols stats ⟨some pos, some 300⟩)[i]? =
        some (2 * m) := by
  refine ⟨create_profile_value pp hlook hnd hmem hidx hne, ?_, ?_⟩
  · have h := create_profile_value 150 hlook hnd hmem hidx hne
    rwa [show (150 : ℚ) / 150 = 1 by norm_num, mul_one] at h
  · have h := create_profile_value 300 hlook hnd hmem hidx hne
    rwa [show (300 : ℚ) / 150 = 2 by norm_num, mul_comm m 2] at h

/-- C3 witness: an RB profile storing a `rushing_yards` mean of 800 yields
the feature 400 at a projection of 75, 800 at 150, and 1600 at 300. -/
theorem C3_witness :
    (create_player_features ["rushing_yards"]
        [("RB", [("rushing_yards", some 800)])] ⟨some "RB", some 75⟩)[0]? =
      some 400 ∧
    (create_player_features ["rushing_yards"]
        [("RB", [("rushing_yards", some 800)])] ⟨some "RB", some 150⟩)[0]? =
      some 800 ∧
    (create_player_features ["rushing_yards"]
        [("RB", [("rushing_yards", some 800)])] ⟨some "RB", some 300⟩)[0]? =
      some 1600 := by
  have h := C3_profile_linear_scaling ["rushing_yards"]
    [("RB", [("rushing_yards", some 800)])] "RB"
    [("rushing_yards", some 800)] "rushing_yards" 800 0 75
    rfl (by decide) (by decide) (by decide) (by decide)
  refine ⟨?_, ?_, ?_⟩
  · have h1 := h.1
    rwa [show (800 : ℚ) * (75 / 150) = 400 by norm_num] at h1
  · exact h.2.1
  · have h3 := h.2.2
    rwa [show (2 : ℚ) * 800 = 1600 by norm_num] at h3

/-- C4 counterexample: for a QB with `projected_points = 300` and no QB
profile, the fallback writes `interceptions = 10` — the bare baseline
constant, not the baseline scaled by `projected_points / 150 = 2` the claim
requires. -/
theorem C4_counterexample :
    create_player_features ["interceptions"] [] ⟨some "QB", some 300⟩ =
        [10] ∧
      (10 : ℚ) ≠ 10 * ((300 : ℚ) / 150) := by
  constructor
  · simp [create_player_features, estimate_basic_stats, applyStats,
      statEstimates, position_flags, setFeature, listIndex, applyProfile]
  · norm_num

/-- C4 amended: in the no-profile fallback path, every estimated statistic
written into the vector equals its hardcoded per-position baseline constant
times `projected_points / 150`, with the single exception of the QB
`interceptions` entry, which is the unscaled constant 10; positions outside
QB/RB/WR/TE get no estimated statistics at all. -/
theorem C4_amended_fallback_estimates (cols : List String)
    (stats : List (String × Profile)) (pos : String) (pp : ℚ)
    (name : String) (base : ℚ) (i : ℕ)
    (hlook : List.lookup pos stats = none)
    (hmem : (name, base) ∈ baselineStats pos)
    (hidx : listIndex cols name = some i) :
    (create_player_features cols stats ⟨some pos, some pp⟩)[i]? =
        some (if pos = "QB" ∧ name = "interceptions" then 10
              else base * (pp / 150)) ∧
    ∀ (q : String) (fs : List ℚ),
      q ∉ (["QB", "RB", "WR", "TE"] : List String) →
      estimate_basic_stats cols fs q pp = fs := by
  constructor
  · have hname12 := baselineStats_fst_mem (p := (name, base)) hmem
    have hgames : ("games" : String) ≠ name := by
      have hd : ∀ x ∈ (["passing_yards", "passing_tds", "completions",
          "attempts", "interceptions", "rushing_yards", "rushing_tds",
          "rushing_attempts", "receiving_yards", "receiving_tds",
          "receptions", "targets"] : List String),
          ("games" : String) ≠ x := by decide
      exact hd name hname12
    rw [create_player_features_eq]
    simp only [Option.getD_some, hlook]
    rw [setFeature_getElem_of_ne (listIndex_getElem hidx) hgames]
    rw [estimate_basic_stats]
    refine applyStats_getElem_of_mem ?_
      (statEstimates_mem_of_baseline hmem) hidx ?_
    · rw [statEstimates_keys]
      exact baselineStats_keys_nodup pos
    · rw [length_applyStats, List.length_replicate]
  · intro q fs hq
    simp only [List.mem_cons, List.not_mem_nil, or_false, not_or] at hq
    obtain ⟨h1, h2, h3, h4⟩ := hq
    rw [estimate_basic_stats]
    rw [show statEstimates q pp = [] by rw [statEstimates]; simp [h1, h2, h3, h4]]
    rfl

/-- C4 witness: a QB fallback writes `passing_yards = 3500 * 2 = 7000` at a
projection of 300. -/
theorem C4_witness :
    (create_player_features ["passing_yards"] []
        ⟨some "QB", some 300⟩)[0]? = some 7000 := by
  have h := (C4_amended_fallback_estimates ["passing_yards"] [] "QB" 300
    "passing_yards" 3500 0 rfl (by decide) (by decide)).1
  simp at h
  rwa [show (3500 : ℚ) * (300 / 150) = 7000 by norm_num] at h

/-- C5: whenever `analyze_trade_impact` returns a result, the partner's net
change is exactly the negation of the user's net change (the user's net
change being the received sum minus the given sum). -/
theorem C5_trade_symmetry (s : Service) (u p : List PlayerData)
    (r : TradeImpact) (h : analyze_trade_impact s u p = Except.ok r) :
    r.partner_net_change = -r.user_net_change ∧
    r.user_net_change = r.user_receiving_value - r.user_giving_value := by
  rw [analyze_trade_impact] at h
  cases h1 : sumPredictions s u with
  | error e => rw [h1] at h; simp [Except.bind] at h
  | ok a =>
    rw [h1] at h
    cases h2 : sumPredictions s p with
    | error e => rw [h2] at h; simp [Except.bind, Except.map] at h
    | ok b =>
      rw [h2] at h
      simp only [Except.bind, Except.map, Except.ok.injEq] at h
      rw [← h]
      exact ⟨by ring, rfl⟩

/-- C5 witness: the symmetry theorem applied to the empty trade on a loaded
service. -/
theorem C5_witness :
    ((0 : ℚ) - 0 = -((0 : ℚ) - 0)) ∧ ((0 : ℚ) - 0 = (0 : ℚ) - 0) :=
  C5_trade_symmetry ⟨some fun _ => 0, some fun x => x, some [], []⟩ [] []
    ⟨0, 0, 0 - 0, 0 - 0, recommendationFor (0 - 0)⟩ rfl

/-- C6: `analyze_trade_impact` derives its recommendation from
`user_net_change` through the strict threshold chain `>10`, `>5`, `>0`,
`>-5`, `>-10`, else poor; the bounds are exclusive, so exactly 10 falls in
the "good" tier while 10.01 falls in the "excellent" tier. -/
theorem C6_recommendation_tiers :
    (∀ (s : Service) (u p : List PlayerData) (r : TradeImpact),
      analyze_trade_impact s u p = Except.ok r →
      r.recommendation = recommendationFor r.user_net_change) ∧
    (∀ x : ℚ, 10 < x →
      recommendationFor x =
        "Excellent trade for you! This significantly improves your team.") ∧
    (∀ x : ℚ, 5 < x → x ≤ 10 →
      recommendationFor x =
        "Good trade for you. Consider accepting this offer.") ∧
    (∀ x : ℚ, 0 < x → x ≤ 5 →
      recommendationFor x =
        "Slight advantage to you. Worth considering based on team needs.") ∧
    (∀ x : ℚ, -5 < x → x ≤ 0 →
      recommendationFor x =
        "Fairly even trade. Consider roster construction and bye weeks.") ∧
    (∀ x : ℚ, -10 < x → x ≤ -5 →
      recommendationFor x =
        "This trade favors your opponent. You might want to ask for more.") ∧
    (∀ x : ℚ, x ≤ -10 →
      recommendationFor x =
        "Poor trade for you. Consider declining or asking for significant additions.") := by
  refine ⟨?_, ?_, ?_, ?_, ?_, ?_, ?_⟩
  · intro s u p r h
    rw [analyze_trade_impact] at h
    cases h1 : sumPredictions s u with
    | error e => rw [h1] at h; simp [Except.bind] at h
    | ok a =>
      rw [h1] at h
      cases h2 : sumPredictions s p with
      | error e => rw [h2] at h; simp [Except.bind, Except.map] at h
      | ok b =>
        rw [h2] at h
        simp only [Except.bind, Except.map, Except.ok.injEq] at h
        rw [← h]
  · intro x hx
    rw [recommendationFor, if_pos hx]
  · intro x h5 h10
    rw [recommendationFor, if_neg (by push_neg; linarith), if_pos h5]
  · intro x h0 h5
    rw [recommendationFor, if_neg (by push_neg; linarith),
      if_neg (by push_neg; linarith), if_pos h0]
  · intro x hm5 h0
    rw [recommendationFor, if_neg (by push_neg; linarith),
      if_neg (by push_neg; linarith), if_neg (by push_neg; linarith),
      if_pos hm5]
  · intro x hm10 hm5
    rw [recommendationFor, if_neg (by push_neg; linarith),
      if_neg (by push_neg; linarith), if_neg (by push_neg; linarith),
      if_neg (by push_neg; linarith), if_pos hm10]
  · intro x hp
    rw [recommendationFor, if_neg (by push_neg; linarith),
      if_neg (by push_neg; linarith), if_neg (by push_neg; linarith),
      if_neg (by push_neg; linarith), if_neg (by push_neg; linarith)]

/-- C6 witness: a net change of exactly 10 maps to the "good" tier and
10.01 maps to the "excellent" tier. -/
theorem C6_witness :
    recommendationFor 10 =
      "Good trade for you. Consider accepting this offer." ∧
    recommendationFor (1001 / 100) =
      "Excellent trade for you! This significantly improves your team." :=
  ⟨C6_recommendation_tiers.2.2.1 10 (by norm_num) (by norm_num),
   C6_recommendation_tiers.2.1 (1001 / 100) (by norm_num)⟩

/-- C7: in the heuristic evaluator each player's value is
`projected_points * position_multiplier` (QB 0.8, RB 1.2, WR 1.1, TE 1.0,
K 0.5, D/ST 0.6, default 1 for unknown positions); two sides are fair
exactly when the absolute difference of their rounded totals is at most 5;
and the RB-100 versus K-100 scenario yields totals 120 and 50,
`is_fair = false`, winner `team1`, advantage 70. -/
theorem C7_heuristic_trade_value :
    (∀ pp : ℚ,
      playerValue ⟨some "QB", some pp⟩ = pp * 0.8 ∧
      playerValue ⟨some "RB", some pp⟩ = pp * 1.2 ∧
      playerValue ⟨some "WR", some pp⟩ = pp * 1.1 ∧
      playerValue ⟨some "TE", some pp⟩ = pp * 1.0 ∧
      playerValue ⟨some "K", some pp⟩ = pp * 0.5 ∧
      playerValue ⟨some "D/ST", some pp⟩ = pp * 0.6) ∧
    (∀ (pos : String) (pp : ℚ),
      pos ∉ (["QB", "RB", "WR", "TE", "K", "D/ST"] : List String) →
      playerValue ⟨some pos, some pp⟩ = pp * 1) ∧
    (∀ t1 t2 : List HPlayer,
      (analyze_trade t1 t2).is_fair = true ↔
      |(calculate_trade_value t1).total_value -
        (calculate_trade_value t2).total_value| ≤ 5) ∧
    ((calculate_trade_value [⟨some "RB", some 100⟩]).total_value = 120 ∧
     (calculate_trade_value [⟨some "K", some 100⟩]).total_value = 50 ∧
     (analyze_trade [⟨some "RB", some 100⟩]
        [⟨some "K", some 100⟩]).is_fair = false ∧
     (analyze_trade [⟨some "RB", some 100⟩]
        [⟨some "K", some 100⟩]).winner = "team1" ∧
     (analyze_trade [⟨some "RB", some 100⟩]
        [⟨some "K", some 100⟩]).advantage = 70) := by
  refine ⟨?_, ?_, ?_, ?_⟩
  · intro pp
    refine ⟨?_, ?_, ?_, ?_, ?_, ?_⟩ <;>
      simp [playerValue, multipliers, List.lookup]
  · intro pos pp h
    simp only [List.mem_cons, List.not_mem_nil, or_false, not_or] at h
    obtain ⟨hq, hr, hw, ht, hk, hd⟩ := h
    rw [playerValue]
    rw [show List.lookup ((⟨some pos, some pp⟩ : HPlayer).position.getD
        "UNKNOWN") multipliers = none by
      simp [multipliers, List.lookup, beq_eq_false_iff_ne.mpr hq,
        beq_eq_false_iff_ne.mpr hr, beq_eq_false_iff_ne.mpr hw,
        beq_eq_false_iff_ne.mpr ht, beq_eq_false_iff_ne.mpr hk,
        beq_eq_false_iff_ne.mpr hd]]
    rfl
  · intro t1 t2
    simp [analyze_trade]
    norm_num
  · refine ⟨?_, ?_, ?_, ?_, ?_⟩ <;>
      · simp [analyze_trade, calculate_trade_value, playerValue,
          bumpPosition, multipliers, List.lookup]
        norm_num [round2, roundHalfEven]

/-- C7 witness: an unknown position (`FLEX`) gets the default multiplier 1. -/
theorem C7_witness : playerValue ⟨some "FLEX", some 3⟩ = 3 * 1 :=
  C7_heuristic_trade_value.2.1 "FLEX" 3 (by decide)

/-- C8 counterexample: in the model-based strategy a missing
`projectedPoints` is defaulted to the nominal 150 — the feature vector of a
projection-less RB equals the 150-projection vector and carries the nonzero
`rushing_yards = 800`, while a zero projection yields 0.  Missing is
therefore not treated as a zero contribution by `create_player_features`,
contrary to the claim. -/
theorem C8_counterexample :
    create_player_features ["rushing_yards"] [] ⟨some "RB", none⟩ =
        create_player_features ["rushing_yards"] [] ⟨some "RB", some 150⟩ ∧
      create_player_features ["rushing_yards"] [] ⟨some "RB", none⟩ =
        [800] ∧
      create_player_features ["rushing_yards"] [] ⟨some "RB", some 0⟩ =
        [0] ∧
      (800 : ℚ) ≠ 0 := by
  refine ⟨rfl, ?_, ?_, by norm_num⟩
  · simp [create_player_features, estimate_basic_stats, applyStats,
      statEstimates, position_flags, setFeature, listIndex, applyProfile]
  · simp [create_player_features, estimate_basic_stats, applyStats,
      statEstimates, position_flags, setFeature, listIndex, applyProfile]

/-- C8 amended: both strategies are total on descriptors with missing or
zero projections; the heuristic (`calculate_trade_value`) treats a missing
`projected_points` as a zero contribution, while the model-based feature
builder defaults a missing `projectedPoints` to the nominal 150, so such a
player contributes its 150-projection prediction instead of zero. -/
theorem C8_amended_missing_projection :
    (∀ p : HPlayer, p.projected_points = none → playerValue p = 0) ∧
    (∀ p : HPlayer, p.projected_points = some 0 → playerValue p = 0) ∧
    (∀ (cols : List String) (stats : List (String × Profile))
       (pos : Option String),
      create_player_features cols stats ⟨pos, none⟩ =
        create_player_features cols stats ⟨pos, some 150⟩) := by
  refine ⟨?_, ?_, ?_⟩
  · intro p hp
    simp [playerValue, hp]
  · intro p hp
    simp [playerValue, hp]
  · intro cols stats pos
    rfl

/-- C8 witness: an RB heuristic entry with no projection contributes 0. -/
theorem C8_witness : playerValue ⟨some "RB", none⟩ = 0 :=
  C8_amended_missing_projection.1 ⟨some "RB", none⟩ rfl

/-- C9: when the model, the scaler, or the feature schema is not loaded,
`predict_fantasy_points` reports the not-ready error instead of any
prediction; conversely a returned prediction implies `is_loaded` was true. -/
theorem C9_not_ready (s : Service) (player : PlayerData) (v : ℚ) :
    (is_loaded s = false →
      predict_fantasy_points s player = Except.error "Model not loaded") ∧
    (predict_fantasy_points s player = Except.ok v → is_loaded s = true) := by
  rcases s with ⟨m, sc, fc, ps⟩
  cases m <;> cases sc <;> cases fc <;>
    simp [is_loaded, predict_fantasy_points]

/-- C9 witness: a fully loaded service yields a prediction, and the theorem
turns that prediction into `is_loaded = true`. -/
theorem C9_witness :
    is_loaded ⟨some fun _ => 0, some fun x => x, some [], []⟩ = true :=
  (C9_not_ready ⟨some fun _ => 0, some fun x => x, some [], []⟩
    ⟨none, none⟩ 0).2 rfl

/-- C10: `calculate_trade_value` on the empty list returns a total of 0,
a breakdown mapping all six tracked positions to 0, and an average of 0;
the average's divisor `max 1 (len)` is 1 rather than 0. -/
theorem C10_empty_trade_value :
    calculate_trade_value [] =
      { total_value := 0,
        position_breakdown :=
          [("QB", 0), ("RB", 0), ("WR", 0), ("TE", 0), ("K", 0),
           ("D/ST", 0)],
        average_value := 0 } ∧
    max 1 ([] : List HPlayer).length = 1 := by
  constructor
  · simp [calculate_trade_value, round2, roundHalfEven]
  · rfl

end TradeAI
